import Mathlib

/-!
Verification development for the Emote_Widget repository.

Part 1 embeds the adaptive lip-sync signal pipeline of
`src/Emote_Widget.py` (class `StreamLipSyncThread`): the dual-EMA
envelope update and the activation mapping executed once per audio
frame inside `StreamLipSyncThread.run`, together with the queue event
handling of the run loop (sentinel, well-formed block, raising block,
`queue.Empty` timeout).

Machine floats are modelled as exact rationals.  The RMS of a block
(`np.sqrt(np.mean(chunk**2))` in the source) is an arbitrary
non-negative input to the per-frame step, since every claim below
quantifies over the RMS value itself.
-/

/-- Envelope state of `StreamLipSyncThread`: the fields `self.mean_rms`
and `self.peak_rms` (both start at 0.0 in `__init__`). -/
structure LipSyncState where
  mean_rms : ℚ
  peak_rms : ℚ
deriving DecidableEq, Repr

/-- Per-thread configuration: `self.mean_smoothing`, `self.peak_smoothing`
(computed as `exp(-1/(decay*fps))`, hence in the open interval (0,1); kept
abstract here) and `self.activation_ratio` (Lean field name has a trailing
`_v`). -/
structure LipSyncCfg where
  mean_smoothing : ℚ
  peak_smoothing : ℚ
  activation_ratio_v : ℚ
deriving DecidableEq, Repr

/-- One well-formed frame of `StreamLipSyncThread.run`, translated line by
line from the body of the `try:` block (src/Emote_Widget.py lines 244-284):
dual-EMA update of `mean_rms` / `peak_rms`, then the activation threshold,
the silence guard `dynamic_range > 0.001`, the division by
`effective_range + 1e-6` and the clamp `max(0.0, min(ratio, 1.0))`.
Returns the updated envelope state and the emitted mouth-open value. -/
def processChunk (cfg : LipSyncCfg) (st : LipSyncState) (current_rms : ℚ) :
    LipSyncState × ℚ :=
  let mean' := st.mean_rms * cfg.mean_smoothing + current_rms * (1 - cfg.mean_smoothing)
  let peak' := max current_rms (st.peak_rms * cfg.peak_smoothing)
  let dynamic_range := peak' - mean'
  let activation_threshold := mean' + cfg.activation_ratio_v * dynamic_range
  let ratio_v :=
    if current_rms > activation_threshold ∧ dynamic_range > 1/1000 then
      let effective_range := peak' - activation_threshold
      max 0 (min ((current_rms - activation_threshold) / (effective_range + 1/1000000)) 1)
    else 0
  (⟨mean', peak'⟩, ratio_v)

/-- One item taken from the hand-off queue by the loop in
`StreamLipSyncThread.run` (or the `queue.Empty` timeout outcome):
`sentinel` is the `None` pushed by `stop()`; `block r` is a well-formed
audio chunk whose RMS evaluates to `r`; `raising` is a malformed block
whose processing raises (caught by the `except Exception` branch, which
only logs); `empty_to` is the `queue.Empty` timeout branch. -/
inductive QueueEvent where
  | sentinel
  | block (r : ℚ)
  | raising
  | empty_to
deriving DecidableEq, Repr

/-- Result of one loop iteration: the new envelope state, the values
emitted through `mouth_open_ratio_updated.emit` during that iteration,
and whether the loop keeps running (`False` exactly when the sentinel
breaks the loop). -/
structure StepRes where
  state : LipSyncState
  emitted : List ℚ
  keep_running : Bool
deriving DecidableEq, Repr

/-- One iteration of the `while self.is_running` loop of
`StreamLipSyncThread.run`, by case on what the queue yields:
`None` breaks; a well-formed chunk runs `processChunk` and emits its
ratio; a raising chunk is logged and skipped (nothing emitted, state
untouched); `queue.Empty` decays the peak only and emits 0.0. -/
def runStep (cfg : LipSyncCfg) (st : LipSyncState) : QueueEvent → StepRes
  | .sentinel => ⟨st, [], false⟩
  | .block r =>
      let out := processChunk cfg st r
      ⟨out.1, [out.2], true⟩
  | .raising => ⟨st, [], true⟩
  | .empty_to => ⟨⟨st.mean_rms, st.peak_rms * cfg.peak_smoothing⟩, [0], true⟩

/-- The whole loop of `StreamLipSyncThread.run` over a finite trace of
queue events: threads the envelope state and concatenates the emissions,
stopping at the sentinel. -/
def runLoop (cfg : LipSyncCfg) (st : LipSyncState) :
    List QueueEvent → LipSyncState × List ℚ
  | [] => (st, [])
  | ev :: rest =>
      let r := runStep cfg st ev
      if r.keep_running then
        let tail := runLoop cfg r.state rest
        (tail.1, r.emitted ++ tail.2)
      else (r.state, r.emitted)

/-- Receive timeout, in seconds, of the queue pull in
`StreamLipSyncThread.run`: the literal `1` in
`audio_chunk = self.audio_queue.get(timeout=1)`. -/
def audio_queue_get_timeout_s : ℚ := 1

/-- Default update rate of the lip-sync thread: `update_fps=30` in
`StreamLipSyncThread.__init__`. -/
def default_update_fps : ℚ := 30

/-!
Part 2 embeds the binding resolver and cache of `src/BoundParams.py`:
the default table `get_default_map`, the pattern table
`VARIABLE_PATTERNS`, variable extraction `_extract_all_vars_from_data`,
table construction `_build_map_from_json_file`, the cache writer
`update_cache` and the cache-first lookup `get_bound_map`.

Python values that can appear in these tables are modelled by `PyVal`
(note the distinct `pyTuple` / `pyList` constructors: the code builds
ranges as tuples, `json` loads arrays as lists).  The `json` module is
modelled by `pyToJson` (dump: tuples and lists both serialize to
arrays) and `jsonToPy` (load: arrays come back as lists).  The file
system is abstracted to a map from file name to `CacheFile`.

Python's `set` has no specified iteration order, so
`_extract_all_vars_from_data` is modelled as the raw traversal list
(with duplicates), and `list(vars_found)` as any duplicate-free list
with the same members (`validEnum`); resolver functions take that
enumeration as an explicit argument.
-/

/-- A Python value as it occurs in binding tables and parsed manifests.
Dict keys are strings (always true for JSON-parsed data and for every
dict built by BoundParams). -/
inductive PyVal where
  | pyNone
  | pyBool (b : Bool)
  | pyNum (q : ℚ)
  | pyStr (s : String)
  | pyList (xs : List PyVal)
  | pyTuple (xs : List PyVal)
  | pyDict (entries : List (String × PyVal))

/-- A JSON document (the content of a syntactically valid cache file):
like `PyVal` but with a single array former and no tuples. -/
inductive JsonVal where
  | jNull
  | jBool (b : Bool)
  | jNum (q : ℚ)
  | jStr (s : String)
  | jArr (xs : List JsonVal)
  | jObj (entries : List (String × JsonVal))

mutual
/-- Serialization `json.dump`: Python tuples and lists both become JSON
arrays; dicts become objects; scalars map across unchanged. -/
def pyToJson : PyVal → JsonVal
  | .pyNone => .jNull
  | .pyBool b => .jBool b
  | .pyNum q => .jNum q
  | .pyStr s => .jStr s
  | .pyList xs => .jArr (pyToJsonList xs)
  | .pyTuple xs => .jArr (pyToJsonList xs)
  | .pyDict es => .jObj (pyToJsonFields es)
/-- `pyToJson` mapped over a list of values. -/
def pyToJsonList : List PyVal → List JsonVal
  | [] => []
  | x :: xs => pyToJson x :: pyToJsonList xs
/-- `pyToJson` mapped over dict entries. -/
def pyToJsonFields : List (String × PyVal) → List (String × JsonVal)
  | [] => []
  | (k, v) :: es => (k, pyToJson v) :: pyToJsonFields es
end

mutual
/-- Deserialization `json.load`: arrays always come back as Python
lists, never tuples. -/
def jsonToPy : JsonVal → PyVal
  | .jNull => .pyNone
  | .jBool b => .pyBool b
  | .jNum q => .pyNum q
  | .jStr s => .pyStr s
  | .jArr xs => .pyList (jsonToPyList xs)
  | .jObj es => .pyDict (jsonToPyFields es)
/-- `jsonToPy` mapped over a list of values. -/
def jsonToPyList : List JsonVal → List PyVal
  | [] => []
  | x :: xs => jsonToPy x :: jsonToPyList xs
/-- `jsonToPy` mapped over object entries. -/
def jsonToPyFields : List (String × JsonVal) → List (String × PyVal)
  | [] => []
  | (k, v) :: es => (k, jsonToPy v) :: jsonToPyFields es
end

mutual
/-- True when the value contains no Python tuple anywhere (such values
survive a `json` dump/load round trip unchanged). -/
def tupleFree : PyVal → Bool
  | .pyNone => true
  | .pyBool _ => true
  | .pyNum _ => true
  | .pyStr _ => true
  | .pyList xs => tupleFreeList xs
  | .pyTuple _ => false
  | .pyDict es => tupleFreeFields es
/-- `tupleFree` over a list of values. -/
def tupleFreeList : List PyVal → Bool
  | [] => true
  | x :: xs => tupleFree x && tupleFreeList xs
/-- `tupleFree` over dict entries. -/
def tupleFreeFields : List (String × PyVal) → Bool
  | [] => true
  | (_, v) :: es => tupleFree v && tupleFreeFields es
end

/-- One entry of a binding table: the dict
`(name, range, category, special_usage)` built by `get_default_map` and
`_build_map_from_json_file` (ranges are Python tuples there). -/
structure ParamInfo where
  name : Option String
  range : ℚ × ℚ
  category : String
  special_usage : List String
deriving DecidableEq, Repr

/-- A binding table: the Python dict from friendly name to entry, as an
insertion-ordered association list (Python 3.7+ dicts preserve insertion
order). -/
abbrev BindingTable := List (String × ParamInfo)

/-- The constants of class `SpecialUsage` that the claims mention. -/
def MOUTH_OPEN : String := "MOUTH_OPEN"

/-- The built-in default table returned by `get_default_map`, entry for
entry in source order. -/
def get_default_map : BindingTable :=
  [("head_lr", ⟨none, (-30, 30), "头部", ["HEAD_LR"]⟩),
   ("head_ud", ⟨none, (-30, 30), "头部", ["HEAD_UD"]⟩),
   ("head_slant", ⟨none, (-15, 15), "头部", []⟩),
   ("eye_lr", ⟨none, (-1, 1), "眼睛", ["EYE_LR"]⟩),
   ("eye_ud", ⟨none, (-1, 1), "眼睛", ["EYE_UD"]⟩),
   ("eye_open", ⟨none, (0, 1), "眼睛", ["EYE_OPEN"]⟩),
   ("body_lr", ⟨none, (-10, 10), "身体", ["BODY_LR"]⟩),
   ("body_ud", ⟨none, (-10, 10), "身体", ["BODY_UD"]⟩),
   ("body_slant", ⟨none, (-10, 10), "身体", []⟩),
   ("mouth_talk", ⟨none, (0, 1), "嘴部", ["MOUTH_OPEN"]⟩),
   ("mouth_shape", ⟨none, (0, 1), "嘴部", ["MOUTH_FORM"]⟩),
   ("move_lr", ⟨none, (-100, 100), "位移", []⟩),
   ("move_ud", ⟨none, (-100, 100), "位移", []⟩),
   ("eyebrow_shape", ⟨none, (0, 1), "眉毛", []⟩),
   ("tears", ⟨none, (0, 1), "表情", []⟩),
   ("cheek_blush", ⟨none, (0, 1), "表情", []⟩)]

/-- The ordered `VARIABLE_PATTERNS` dict.  Every pattern in the source
is an anchored regex `^lit$` or `^fade_l?c$`, i.e. a finite alternation
of exact names; each is modelled by the list of strings it accepts
(matching a name then being list membership). -/
def VARIABLE_PATTERNS : List (String × List String) :=
  [("move_lr", ["move_LR"]), ("move_ud", ["move_UD"]),
   ("head_lr", ["head_LR"]), ("head_ud", ["head_UD"]),
   ("head_slant", ["head_slant"]), ("body_lr", ["body_LR"]),
   ("body_ud", ["body_UD"]), ("body_slant", ["body_slant"]),
   ("eye_lr", ["face_eye_LR"]), ("eye_ud", ["face_eye_UD"]),
   ("eye_open", ["face_eye_open"]), ("eye_special", ["face_eye_sp"]),
   ("pupil_special", ["face_hitomi_sp"]), ("eyebrow_shape", ["face_eyebrow"]),
   ("eyebrow_special", ["face_eyebrow_sp"]), ("mouth_shape", ["face_mouth"]),
   ("mouth_special", ["face_mouth_sp"]), ("mouth_talk", ["face_talk"]),
   ("tears", ["face_tears"]), ("cheek_blush", ["face_cheek"]),
   ("action_special", ["act_sp"]), ("action_special_2", ["act_sp2"]),
   ("action_special_3", ["act_sp3"]), ("bust_lr", ["bust_LR"]),
   ("bust_ud", ["bust_UD"]), ("bust_lr_spare", ["bust_LR_spare"]),
   ("bust_ud_spare", ["bust_UD_spare"]), ("hair_front_lr", ["hair_LR_front"]),
   ("hair_front_middle_lr", ["hair_LR_M_front"]), ("hair_front_ud", ["hair_UD_front"]),
   ("hair_sidel_lr", ["hair_LR_sideL"]), ("hair_sidel_middle_lr", ["hair_LR_M_sideL"]),
   ("hair_sidel_ud", ["hair_UD_sideL"]), ("hair_sider_lr", ["hair_LR_sideR"]),
   ("hair_sider_middle_lr", ["hair_LR_M_sideR"]), ("hair_sider_ud", ["hair_UD_sideR"]),
   ("hair_back_lr", ["hair_LR"]), ("hair_back_middle_lr", ["hair_LR_M"]),
   ("hair_back_ud", ["hair_UD"]), ("quake_lr", ["quake_LR"]),
   ("quake_middle_lr", ["quake_LR_M"]), ("quake_ud", ["quake_UD"]),
   ("quake_lr_spare", ["quake_LR_spare"]), ("quake_middle_lr_spare", ["quake_LR_M_spare"]),
   ("quake_ud_spare", ["quake_UD_spare"]),
   ("part_a_fade", ["fade_a", "fade_la"]), ("part_b_fade", ["fade_b", "fade_lb"]),
   ("part_c_fade", ["fade_c", "fade_lc"]), ("part_d_fade", ["fade_d", "fade_ld"]),
   ("part_e_fade", ["fade_e"]), ("part_x_fade", ["fade_x", "fade_lx"]),
   ("part_y_fade", ["fade_y", "fade_ly"]), ("part_z_fade", ["fade_z", "fade_lz"]),
   ("arm_selector", ["arm_type"]), ("vr_lr", ["vr_LR"]), ("vr_ud", ["vr_UD"])]

/-- The key tuple `("var_lr", "var_ud", "var_lrm", "label")` of
`_extract_all_vars_from_data`. -/
def var_keys : List String := ["var_lr", "var_ud", "var_lrm", "label"]

/-- Python `isinstance(v, str)` on a `PyVal`. -/
def isPyStr : PyVal → Bool
  | .pyStr _ => true
  | _ => false

/-- Python equality of a `PyVal` with the string `"label"` (used by the
membership test `"label" in opt` when `opt` is a list or tuple). -/
def isLabelStr : PyVal → Bool
  | .pyStr s => s == "label"
  | _ => false

/-- Byte-wise prefix test on character lists. -/
def charsPrefixOf : List Char → List Char → Bool
  | [], _ => true
  | _ :: _, [] => false
  | a :: as, b :: bs => a == b && charsPrefixOf as bs

/-- Byte-wise infix test on character lists. -/
def charsInfixOf : List Char → List Char → Bool
  | sub, [] => charsPrefixOf sub []
  | sub, c :: cs => charsPrefixOf sub (c :: cs) || charsInfixOf sub cs

/-- Python substring test `sub in s`. -/
def strHasSub (s sub : String) : Bool := charsInfixOf sub.data s.data

mutual
/-- Python hashability (what `set.add` accepts): lists and dicts are
unhashable, tuples are hashable when their elements are. -/
def pyHashable : PyVal → Bool
  | .pyNone => true
  | .pyBool _ => true
  | .pyNum _ => true
  | .pyStr _ => true
  | .pyList _ => false
  | .pyTuple xs => pyHashableList xs
  | .pyDict _ => false
/-- `pyHashable` over a list of values. -/
def pyHashableList : List PyVal → Bool
  | [] => true
  | x :: xs => pyHashable x && pyHashableList xs
end

/-- Python `"label" in opt` followed by `vars_found.add(opt["label"])`
for one element of an `optionList`, returning the grown accumulator or
the TypeError the interpreter raises: membership on a number, bool or
None raises; indexing a string/list/tuple with `"label"` raises when the
membership test succeeded; adding an unhashable label value raises. -/
def extractOpt (acc : List PyVal) : PyVal → Except Unit (List PyVal)
  | .pyDict oes =>
      match List.lookup "label" oes with
      | some w => if pyHashable w then .ok (acc ++ [w]) else .error ()
      | none => .ok acc
  | .pyStr s => if strHasSub s "label" then .error () else .ok acc
  | .pyList xs => if xs.any isLabelStr then .error () else .ok acc
  | .pyTuple xs => if xs.any isLabelStr then .error () else .ok acc
  | .pyNone => .error ()
  | .pyBool _ => .error ()
  | .pyNum _ => .error ()

mutual
/-- The inner `recursive(obj)` of `_extract_all_vars_from_data`,
accumulating the values that the source adds to `vars_found`, in
traversal order and with duplicates (deduplication and iteration order
of the Python set are handled by `validEnum`). -/
def extractVal : PyVal → List PyVal → Except Unit (List PyVal)
  | .pyDict es, acc => extractEntries es acc
  | .pyList xs, acc => extractItems xs acc
  | _, acc => .ok acc
/-- The `for k, v in obj.items()` loop: per entry, the `var_keys`
check, then the `optionList` check, then `recursive(v)`. -/
def extractEntries : List (String × PyVal) → List PyVal → Except Unit (List PyVal)
  | [], acc => .ok acc
  | (k, v) :: es, acc => do
      let acc1 := if var_keys.contains k && isPyStr v then acc ++ [v] else acc
      let acc2 ← match k == "optionList", v with
        | true, .pyList opts => extractOpts opts acc1
        | _, _ => .ok acc1
      let acc3 ← extractVal v acc2
      extractEntries es acc3
/-- The `for opt in v` loop over an `optionList`. -/
def extractOpts : List PyVal → List PyVal → Except Unit (List PyVal)
  | [], acc => .ok acc
  | opt :: opts, acc => do
      let acc1 ← extractOpt acc opt
      extractOpts opts acc1
/-- The `for item in obj` loop over a list. -/
def extractItems : List PyVal → List PyVal → Except Unit (List PyVal)
  | [], acc => .ok acc
  | x :: xs, acc => do
      let acc1 ← extractVal x acc
      extractItems xs acc1
end

/-- `_extract_all_vars_from_data(data)` up to the set: the raw traversal
list of added values (the source returns `list(vars_found)`, an
arbitrary enumeration of this list's members). -/
def extractData (data : PyVal) : Except Unit (List PyVal) :=
  extractVal data []

/-- The lists that `list(vars_found)` can be for a given manifest: any
duplicate-free list with exactly the members the traversal added. -/
def validEnum (data : PyVal) (e : List PyVal) : Prop :=
  ∃ l, extractData data = .ok l ∧ e.Nodup ∧ ∀ x, x ∈ e ↔ x ∈ l

/-- Auxiliary for the `matched` comprehension: `re.match` demands
strings, raising TypeError on anything else, so the comprehension
succeeds exactly when every extracted variable is a string. -/
def asStrings : List PyVal → Option (List String)
  | [] => some []
  | .pyStr s :: xs => (asStrings xs).map (s :: ·)
  | _ :: _ => none

/-- One iteration of the `for friendly_name, pattern in
VARIABLE_PATTERNS.items()` loop of `_build_map_from_json_file`:
`matched = [v for v in model_vars_found if regex.match(v)]`; on a
non-empty match list, either fill in `name` of the existing entry
(in-place dict update) or append a fresh auto-matched entry. -/
def applyPattern (model_vars_found : List String) (rm : BindingTable)
    (fp : String × List String) : BindingTable :=
  match model_vars_found.filter (fun v => fp.2.contains v) with
  | [] => rm
  | m :: _ =>
      if (List.lookup fp.1 rm).isSome then
        rm.map (fun e => if e.1 = fp.1 then (e.1, { e.2 with name := some m }) else e)
      else
        rm ++ [(fp.1, ⟨some m, (-1, 1), "自动匹配", []⟩)]

/-- The pattern loop of `_build_map_from_json_file` over the (already
string-checked) extracted variables, starting from the default table. -/
def _build_map_from_vars (model_vars_found : List String) : BindingTable :=
  VARIABLE_PATTERNS.foldl (applyPattern model_vars_found) get_default_map

/-- The `matched` comprehensions: raise when some extracted variable is
not a string, else run the pattern loop. -/
def buildFromEnum (e : List PyVal) : Except Unit BindingTable :=
  match asStrings e with
  | some vs => .ok (_build_map_from_vars vs)
  | none => .error ()

/-- `_build_map_from_json_file`: `parsed = none` models the caught
read/parse failure (degrade to the default table); otherwise run the
extraction (which can raise) and the pattern loop over the set
enumeration `e`. -/
def _build_map_from_json_file (parsed : Option PyVal) (e : List PyVal) :
    Except Unit BindingTable :=
  match parsed with
  | none => .ok get_default_map
  | some data =>
      match extractData data with
      | .error u => .error u
      | .ok _ => buildFromEnum e

/-- Serialization shape of one table entry as built by the source
(dict literal order `name, range, category, special_usage`; the range is
a Python tuple). -/
def paramToPy (p : ParamInfo) : PyVal :=
  .pyDict [("name", (p.name.map PyVal.pyStr).getD .pyNone),
           ("range", .pyTuple [.pyNum p.range.1, .pyNum p.range.2]),
           ("category", .pyStr p.category),
           ("special_usage", .pyList (p.special_usage.map PyVal.pyStr))]

/-- A whole binding table as the Python dict the source passes to
`json.dump`. -/
def tableToPy (t : BindingTable) : PyVal :=
  .pyDict (t.map fun e => (e.1, paramToPy e.2))

/-- State of one cache file: absent, present but not valid JSON
(`json.load` raises `JSONDecodeError`), or valid JSON with the given
document. -/
inductive CacheFile where
  | absent
  | corrupt
  | valid (j : JsonVal)

/-- Cache key derivation used by both `get_bound_map` and
`update_cache`: `f"{model_filename}.map.json"`. -/
def cacheKey (model_filename : String) : String := model_filename ++ ".map.json"

/-- `update_cache(model_filename, new_map)`: overwrite the cache file
for the derived key with the serialized table (the write is modelled as
succeeding). -/
def update_cache (cache : String → CacheFile) (model_filename : String)
    (new_map : PyVal) : String → CacheFile :=
  fun k => if k = cacheKey model_filename then .valid (pyToJson new_map) else cache k

/-- `get_bound_map` with the file system abstracted: `model_exists` is
`os.path.exists(model_path)`; `cache` is the cache directory;
`json_file` is the outcome of obtaining the variable manifest (`none`:
no adjacent `.json` and decompilation failed; `some none`: a manifest
file exists but reading/parsing it fails inside
`_build_map_from_json_file`; `some (some data)`: parsed manifest);
`e` is the extracted-variable set enumeration.  Returns the loaded or
built table (as the Python value the function returns) and the updated
cache, or the TypeError escaping from the resolver. -/
def get_bound_map (model_exists : Bool) (cache : String → CacheFile)
    (json_file : Option (Option PyVal)) (e : List PyVal)
    (model_filename : String) :
    Except Unit (PyVal × (String → CacheFile)) :=
  if model_exists = false then .ok (tableToPy get_default_map, cache)
  else
    match cache (cacheKey model_filename) with
    | .valid j => .ok (jsonToPy j, cache)
    | _ =>
      match json_file with
      | none => .ok (tableToPy get_default_map, cache)
      | some parsed =>
        match _build_map_from_json_file parsed e with
        | .error u => .error u
        | .ok t =>
            .ok (tableToPy t,
              if t.isEmpty then cache
              else update_cache cache model_filename (tableToPy t))

/-!
Part 3 embeds the widget-side lip-sync lifecycle of
`src/Emote_Widget.py` (`EmoteWidget.find_param_by_usage`,
`EmoteWidget.stop_lip_sync`, `EmoteWidget.start_lip_sync`), restricted
to the state those methods read and write.
-/

/-- The slice of `EmoteWidget` state that `start_lip_sync` touches:
`variable_map` (values are binding-table entries, hence dicts — the
`isinstance(param_info, dict)` guard always passes), whether
`self._lip_sync_thread` exists and is running, whether
`self._streamer_stop_event` is set, and `self.mouth_param_info`. -/
structure WidgetState where
  variable_map : BindingTable
  thread_running : Bool
  streamer_stop_flag : Bool
  mouth_param_info : Option ParamInfo
deriving DecidableEq, Repr

/-- `find_param_by_usage`: first entry of `variable_map.values()` (dict
order) whose `special_usage` contains the tag. -/
def find_param_by_usage (vm : BindingTable) (usage_tag : String) : Option ParamInfo :=
  (vm.find? (fun e => e.2.special_usage.contains usage_tag)).map (·.2)

/-- `stop_lip_sync`: set the streamer stop event; if a thread is running
stop it (drain the queue, clear `is_running`, push the sentinel). -/
def stop_lip_sync (w : WidgetState) : WidgetState :=
  { w with streamer_stop_flag := true, thread_running := false }

/-- `start_lip_sync`: stop a running previous session first; then look
up the MOUTH_OPEN parameter — on `None` log and return (no thread is
created), else record it and start a new thread.  The boolean reports
whether a new session was started. -/
def start_lip_sync (w : WidgetState) : WidgetState × Bool :=
  let w1 := if w.thread_running then stop_lip_sync w else w
  match find_param_by_usage w1.variable_map MOUTH_OPEN with
  | none => (w1, false)
  | some p => ({ w1 with mouth_param_info := some p, thread_running := true }, true)

/-- Shape of the entries that `_build_map_from_json_file` synthesizes
for friendly names absent from the default table: default numeric range
`(-1.0, 1.0)`, category `自动匹配` (auto-matched), no special-usage
tags, and a matched raw name. -/
def autoShaped (p : ParamInfo) : Prop :=
  p.range = (-1, 1) ∧ p.category = "自动匹配" ∧ p.special_usage = [] ∧ p.name.isSome = true

/-- Peak component of `processChunk`, stated explicitly. -/
theorem processChunk_peak (cfg : LipSyncCfg) (st : LipSyncState) (r : ℚ) :
    (processChunk cfg st r).1.peak_rms = max r (st.peak_rms * cfg.peak_smoothing) := rfl

/-- Mean component of `processChunk`, stated explicitly. -/
theorem processChunk_mean (cfg : LipSyncCfg) (st : LipSyncState) (r : ℚ) :
    (processChunk cfg st r).1.mean_rms
      = st.mean_rms * cfg.mean_smoothing + r * (1 - cfg.mean_smoothing) := rfl

/-- C1: with a non-negative activation ratio, the emitted value is never
negative, and any frame whose RMS is at or below the updated mean emits
exactly 0. -/
theorem claim_c1_zero_at_or_below_baseline (cfg : LipSyncCfg) (st : LipSyncState)
    (r : ℚ) (har : 0 ≤ cfg.activation_ratio_v) (hr : 0 ≤ r) :
    0 ≤ (processChunk cfg st r).2 ∧
      (r ≤ (processChunk cfg st r).1.mean_rms → (processChunk cfg st r).2 = 0) := by
  constructor
  · show 0 ≤ (processChunk cfg st r).2
    unfold processChunk
    dsimp only
    split
    · exact le_max_left 0 _
    · exact le_refl 0
  · intro hle
    rw [processChunk_mean] at hle
    unfold processChunk
    dsimp only
    rw [if_neg]
    rintro ⟨hgt, hdr⟩
    have hdr0 : (0:ℚ) ≤ max r (st.peak_rms * cfg.peak_smoothing)
        - (st.mean_rms * cfg.mean_smoothing + r * (1 - cfg.mean_smoothing)) := by
      linarith
    have hmul : 0 ≤ cfg.activation_ratio_v
        * (max r (st.peak_rms * cfg.peak_smoothing)
            - (st.mean_rms * cfg.mean_smoothing + r * (1 - cfg.mean_smoothing))) :=
      mul_nonneg har hdr0
    linarith

/-- C1 witness at a concrete input. -/
theorem claim_c1_zero_at_or_below_baseline_witness :
    0 ≤ (processChunk ⟨1, 1, 1⟩ ⟨5, 0⟩ 0).2 ∧
      ((0:ℚ) ≤ (processChunk ⟨1, 1, 1⟩ ⟨5, 0⟩ 0).1.mean_rms → (processChunk ⟨1, 1, 1⟩ ⟨5, 0⟩ 0).2 = 0) :=
  claim_c1_zero_at_or_below_baseline ⟨1, 1, 1⟩ ⟨5, 0⟩ 0 (by norm_num) (by norm_num)

/-- C2 counterexample: with `activation_ratio = 0`, a frame whose RMS
strictly exceeds the updated mean can still emit 0, because the silence
guard `dynamic_range > 0.001` fails: at smoothing 1/2 from the zero state
with RMS 1/1000, the updated mean is 1/2000 < 1/1000 yet the emitted
value is 0. -/
theorem claim_c2_counterexample :
    (processChunk ⟨1/2, 1/2, 0⟩ ⟨0, 0⟩ (1/1000)).2 = 0 ∧
      (1:ℚ)/1000 > (processChunk ⟨1/2, 1/2, 0⟩ ⟨0, 0⟩ (1/1000)).1.mean_rms := by
  norm_num [processChunk]

/-- C2 amended: with `activation_ratio = 0`, every frame whose RMS
strictly exceeds the updated mean AND whose updated dynamic range exceeds
the 0.001 silence guard emits a strictly positive value; with
`activation_ratio = 1` the emitted value is 0 on every frame and the RMS
never exceeds the updated peak (so a positive value would require RMS at
or above the peak). -/
theorem claim_c2_amended_boundary (cfg : LipSyncCfg) (st : LipSyncState) (r : ℚ) :
    (cfg.activation_ratio_v = 0 →
      (processChunk cfg st r).1.peak_rms - (processChunk cfg st r).1.mean_rms > 1/1000 →
      r > (processChunk cfg st r).1.mean_rms →
      0 < (processChunk cfg st r).2) ∧
    (cfg.activation_ratio_v = 1 →
      (processChunk cfg st r).2 = 0 ∧ r ≤ (processChunk cfg st r).1.peak_rms) := by
  constructor
  · intro har hdr hgt
    rw [processChunk_peak, processChunk_mean] at hdr
    rw [processChunk_mean] at hgt
    show 0 < (processChunk cfg st r).2
    unfold processChunk
    dsimp only
    rw [har]
    rw [if_pos (by constructor <;> [linarith; linarith])]
    have hnum : 0 < r - (st.mean_rms * cfg.mean_smoothing + r * (1 - cfg.mean_smoothing)
        + 0 * (max r (st.peak_rms * cfg.peak_smoothing)
            - (st.mean_rms * cfg.mean_smoothing + r * (1 - cfg.mean_smoothing)))) := by
      linarith
    have hden : 0 < max r (st.peak_rms * cfg.peak_smoothing)
        - (st.mean_rms * cfg.mean_smoothing + r * (1 - cfg.mean_smoothing)
          + 0 * (max r (st.peak_rms * cfg.peak_smoothing)
            - (st.mean_rms * cfg.mean_smoothing + r * (1 - cfg.mean_smoothing))))
        + 1/1000000 := by
      linarith
    have hq : 0 < (r - (st.mean_rms * cfg.mean_smoothing + r * (1 - cfg.mean_smoothing)
        + 0 * (max r (st.peak_rms * cfg.peak_smoothing)
            - (st.mean_rms * cfg.mean_smoothing + r * (1 - cfg.mean_smoothing)))))
        / (max r (st.peak_rms * cfg.peak_smoothing)
            - (st.mean_rms * cfg.mean_smoothing + r * (1 - cfg.mean_smoothing)
              + 0 * (max r (st.peak_rms * cfg.peak_smoothing)
                - (st.mean_rms * cfg.mean_smoothing + r * (1 - cfg.mean_smoothing))))
            + 1/1000000) := div_pos hnum hden
    exact lt_max_of_lt_right (lt_min hq one_pos)
  · intro har
    have hpeak : r ≤ (processChunk cfg st r).1.peak_rms := by
      rw [processChunk_peak]; exact le_max_left r _
    refine ⟨?_, hpeak⟩
    rw [processChunk_peak] at hpeak
    unfold processChunk
    dsimp only
    rw [har]
    rw [if_neg]
    rintro ⟨hgt, -⟩
    have : st.mean_rms * cfg.mean_smoothing + r * (1 - cfg.mean_smoothing)
        + 1 * (max r (st.peak_rms * cfg.peak_smoothing)
            - (st.mean_rms * cfg.mean_smoothing + r * (1 - cfg.mean_smoothing)))
        = max r (st.peak_rms * cfg.peak_smoothing) := by ring
    rw [this] at hgt
    exact absurd hgt (not_lt.mpr hpeak)

/-- C2 amended witness: both boundary cases instantiated at concrete
inputs with all hypotheses discharged. -/
theorem claim_c2_amended_boundary_witness :
    0 < (processChunk ⟨1/2, 1/2, 0⟩ ⟨0, 0⟩ 1).2 ∧
      ((processChunk ⟨1/2, 1/2, 1⟩ ⟨0, 0⟩ 1).2 = 0 ∧
        (1:ℚ) ≤ (processChunk ⟨1/2, 1/2, 1⟩ ⟨0, 0⟩ 1).1.peak_rms) :=
  ⟨(claim_c2_amended_boundary ⟨1/2, 1/2, 0⟩ ⟨0, 0⟩ 1).1 rfl
      (by norm_num [processChunk]) (by norm_num [processChunk]),
    (claim_c2_amended_boundary ⟨1/2, 1/2, 1⟩ ⟨0, 0⟩ 1).2 rfl⟩

/-- C9: the new peak equals `max(currentRMS, peakRMS*peakSmoothing)`;
with a smoothing factor in [0,1] and a non-negative peak, the peak does
not increase when the RMS does not exceed it, and whenever it increases
it lands exactly on the RMS. -/
theorem claim_c9_peak_update (cfg : LipSyncCfg) (st : LipSyncState) (r : ℚ)
    (h0 : 0 ≤ cfg.peak_smoothing) (h1 : cfg.peak_smoothing ≤ 1)
    (hp : 0 ≤ st.peak_rms) :
    (processChunk cfg st r).1.peak_rms = max r (st.peak_rms * cfg.peak_smoothing) ∧
      (r ≤ st.peak_rms → (processChunk cfg st r).1.peak_rms ≤ st.peak_rms) ∧
      (st.peak_rms < (processChunk cfg st r).1.peak_rms →
        (processChunk cfg st r).1.peak_rms = r) := by
  have hdecay : st.peak_rms * cfg.peak_smoothing ≤ st.peak_rms :=
    mul_le_of_le_one_right hp h1
  refine ⟨processChunk_peak cfg st r, ?_, ?_⟩
  · intro hr
    rw [processChunk_peak]
    exact max_le hr hdecay
  · intro hlt
    rw [processChunk_peak] at hlt ⊢
    rcases max_choice r (st.peak_rms * cfg.peak_smoothing) with h | h
    · exact h
    · rw [h] at hlt
      exact absurd hlt (not_lt.mpr hdecay)

/-- C9 witness: a decaying step (RMS below the peak) and a jumping step
(RMS above the peak), both at concrete inputs. -/
theorem claim_c9_peak_update_witness :
    ((processChunk ⟨1/2, 1/2, 0⟩ ⟨0, 1⟩ 0).1.peak_rms ≤ 1 ∧
      (processChunk ⟨1/2, 1/2, 0⟩ ⟨0, 1⟩ 2).1.peak_rms = 2) :=
  ⟨(claim_c9_peak_update ⟨1/2, 1/2, 0⟩ ⟨0, 1⟩ 0 (by norm_num) (by norm_num)
      (by norm_num)).2.1 (by norm_num),
    (claim_c9_peak_update ⟨1/2, 1/2, 0⟩ ⟨0, 1⟩ 2 (by norm_num) (by norm_num)
      (by norm_num)).2.2 (by norm_num [processChunk])⟩

/-- C4 counterexample: a raising (malformed) block is skipped without any
emission: the loop consisting of that single block emits nothing, in
particular not the 0.0 frame the claim requires. -/
theorem claim_c4_counterexample :
    runLoop ⟨1/2, 1/2, 0⟩ ⟨0, 0⟩ [.raising] = (⟨0, 0⟩, []) ∧
      (runLoop ⟨1/2, 1/2, 0⟩ ⟨0, 0⟩ [.raising]).2 ≠ [(0:ℚ)] := by
  constructor
  · rfl
  · intro h
    simp only [runLoop, runStep] at h
    exact absurd h (by simp)

/-- C4 amended: a block whose processing raises is logged and skipped:
the session does not terminate, nothing is emitted for that frame, and
the envelope state is exactly what it was, so the rest of the trace
behaves as if the block had never been received. -/
theorem claim_c4_amended_malformed_skipped (cfg : LipSyncCfg) (st : LipSyncState)
    (rest : List QueueEvent) :
    runStep cfg st .raising = ⟨st, [], true⟩ ∧
      runLoop cfg st (.raising :: rest) = runLoop cfg st rest := by
  refine ⟨rfl, ?_⟩
  show (if (runStep cfg st .raising).keep_running then
          let tail := runLoop cfg (runStep cfg st .raising).state rest
          (tail.1, (runStep cfg st .raising).emitted ++ tail.2)
        else ((runStep cfg st .raising).state, (runStep cfg st .raising).emitted))
      = runLoop cfg st rest
  simp [runStep]

/-- C8 counterexample: the queue receive timeout in the source is the
constant 1 second, which is not one frame period (1/30 s at the default
30 Hz update rate). -/
theorem claim_c8_counterexample :
    audio_queue_get_timeout_s ≠ 1 / default_update_fps := by
  norm_num [audio_queue_get_timeout_s, default_update_fps]

/-- C8 amended: the loop pulls from the queue with a fixed 1 second
timeout independent of the update rate (30 frame periods at the default
30 Hz), and the sentinel stops the loop on the iteration that observes
it. -/
theorem claim_c8_amended_timeout :
    audio_queue_get_timeout_s = 1 ∧
      audio_queue_get_timeout_s = 30 * (1 / default_update_fps) ∧
      ∀ (cfg : LipSyncCfg) (st : LipSyncState),
        (runStep cfg st .sentinel).keep_running = false := by
  refine ⟨rfl, by norm_num [audio_queue_get_timeout_s, default_update_fps], ?_⟩
  intro cfg st
  rfl

mutual
/-- A tuple-free Python value survives the json dump/load round trip. -/
theorem jsonToPy_pyToJson (v : PyVal) (h : tupleFree v = true) :
    jsonToPy (pyToJson v) = v := by
  cases v with
  | pyNone => rfl
  | pyBool b => rfl
  | pyNum q => rfl
  | pyStr s => rfl
  | pyList xs =>
      simp only [tupleFree] at h
      simp only [pyToJson, jsonToPy, PyVal.pyList.injEq]
      exact jsonToPy_pyToJson_list xs h
  | pyTuple xs => simp [tupleFree] at h
  | pyDict es =>
      simp only [tupleFree] at h
      simp only [pyToJson, jsonToPy, PyVal.pyDict.injEq]
      exact jsonToPy_pyToJson_fields es h
/-- List version of `jsonToPy_pyToJson`. -/
theorem jsonToPy_pyToJson_list (xs : List PyVal) (h : tupleFreeList xs = true) :
    jsonToPyList (pyToJsonList xs) = xs := by
  cases xs with
  | nil => rfl
  | cons x xs =>
      simp only [tupleFreeList, Bool.and_eq_true] at h
      simp only [pyToJsonList, jsonToPyList, List.cons.injEq]
      exact ⟨jsonToPy_pyToJson x h.1, jsonToPy_pyToJson_list xs h.2⟩
/-- Dict-entry version of `jsonToPy_pyToJson`. -/
theorem jsonToPy_pyToJson_fields (es : List (String × PyVal))
    (h : tupleFreeFields es = true) :
    jsonToPyFields (pyToJsonFields es) = es := by
  cases es with
  | nil => rfl
  | cons e es =>
      obtain ⟨k, v⟩ := e
      simp only [tupleFreeFields, Bool.and_eq_true] at h
      simp only [pyToJsonFields, jsonToPyFields, List.cons.injEq, Prod.mk.injEq,
        true_and]
      exact ⟨jsonToPy_pyToJson v h.1, jsonToPy_pyToJson_fields es h.2⟩
end

/-- Association-list lookup through a cons cell, with propositional
equality in place of the boolean test. -/
theorem lookup_cons_ite {β : Type} (a k : String) (b : β) (es : List (String × β)) :
    List.lookup a ((k, b) :: es) = if a = k then some b else List.lookup a es := by
  rw [List.lookup_cons]
  by_cases h : a = k
  · subst h; simp
  · rw [beq_false_of_ne h, if_neg h]

/-- Lookup through the in-place `name` update
`result_map[friendly_name]['name'] = matched[0]` of the pattern loop. -/
theorem lookup_name_update (rm : BindingTable) (fn m k : String) :
    List.lookup k (rm.map fun e => if e.1 = fn then (e.1, { e.2 with name := some m }) else e)
      = if k = fn then (List.lookup k rm).map (fun p => { p with name := some m })
        else List.lookup k rm := by
  induction rm with
  | nil => simp only [List.map_nil, List.lookup_nil, Option.map_none']; split <;> rfl
  | cons a t ih =>
      obtain ⟨ka, pa⟩ := a
      simp only [List.map_cons]
      by_cases hkf : k = fn
      · rw [if_pos hkf]
        by_cases hka : ka = fn
        · rw [if_pos hka, lookup_cons_ite, lookup_cons_ite]
          by_cases hk : k = ka
          · rw [if_pos hk, if_pos hk]; rfl
          · rw [if_neg hk, if_neg hk, ih, if_pos hkf]
        · have hk : k ≠ ka := fun h => hka (h.symm.trans hkf)
          rw [if_neg hka, lookup_cons_ite, lookup_cons_ite, if_neg hk, if_neg hk,
            ih, if_pos hkf]
      · rw [if_neg hkf]
        by_cases hka : ka = fn
        · have hk : k ≠ ka := fun h => hkf (h.trans hka)
          rw [if_pos hka, lookup_cons_ite, lookup_cons_ite, if_neg hk, if_neg hk,
            ih, if_neg hkf]
        · rw [if_neg hka, lookup_cons_ite, lookup_cons_ite]
          by_cases hk : k = ka
          · rw [if_pos hk, if_pos hk]
          · rw [if_neg hk, if_neg hk, ih, if_neg hkf]

/-- `applyPattern` never disturbs the entry of a different friendly
name. -/
theorem applyPattern_lookup_ne (vars : List String) (rm : BindingTable)
    (fp : String × List String) (k : String) (h : k ≠ fp.1) :
    List.lookup k (applyPattern vars rm fp) = List.lookup k rm := by
  unfold applyPattern
  split
  · rfl
  · split
    · rw [lookup_name_update, if_neg h]
    · rw [List.lookup_append, lookup_cons_ite, if_neg h, List.lookup_nil,
        Option.or_none]

/-- After its own loop iteration, a friendly name whose pattern matched
some extracted variable is bound to the first match of the enumeration. -/
theorem applyPattern_lookup_self (vars : List String) (rm : BindingTable)
    (fp : String × List String) (m : String) (rest : List String)
    (hf : vars.filter (fun v => fp.2.contains v) = m :: rest) :
    ∃ p, List.lookup fp.1 (applyPattern vars rm fp) = some p ∧ p.name = some m := by
  have happ : applyPattern vars rm fp
      = if (List.lookup fp.1 rm).isSome then
          rm.map (fun e => if e.1 = fp.1 then (e.1, { e.2 with name := some m }) else e)
        else rm ++ [(fp.1, ⟨some m, (-1, 1), "自动匹配", []⟩)] := by
    unfold applyPattern
    rw [hf]
  rw [happ]
  cases hs : List.lookup fp.1 rm with
  | some p0 =>
      rw [if_pos (show (some p0).isSome = true from rfl)]
      refine ⟨{ p0 with name := some m }, ?_, rfl⟩
      rw [lookup_name_update, if_pos rfl, hs]
      rfl
  | none =>
      rw [if_neg (show ¬((none : Option ParamInfo).isSome = true) from by simp)]
      refine ⟨⟨some m, (-1, 1), "自动匹配", []⟩, ?_, rfl⟩
      rw [List.lookup_append, hs, Option.none_or, lookup_cons_ite, if_pos rfl]

/-- Folding the pattern loop over patterns with other friendly names
leaves an entry's binding untouched. -/
theorem foldl_applyPattern_lookup_ne (vars : List String)
    (l : List (String × List String)) (rm : BindingTable) (k : String)
    (h : ∀ fp ∈ l, k ≠ fp.1) :
    List.lookup k (l.foldl (applyPattern vars) rm) = List.lookup k rm := by
  induction l generalizing rm with
  | nil => rfl
  | cons fp l ih =>
      rw [List.foldl_cons, ih _ (fun q hq => h q (List.mem_cons_of_mem fp hq)),
        applyPattern_lookup_ne vars rm fp k (h fp (List.mem_cons_self fp l))]

/-- The invariant of the pattern loop: every default friendly name stays
present, and every entry is either a default friendly name or
auto-shaped.  Preserved by one iteration. -/
theorem applyPattern_invariant (vars : List String) (rm : BindingTable)
    (fp : String × List String)
    (h1 : ∀ k, (List.lookup k get_default_map).isSome → (List.lookup k rm).isSome)
    (h2 : ∀ k p, List.lookup k rm = some p →
      (List.lookup k get_default_map).isSome ∨ autoShaped p) :
    (∀ k, (List.lookup k get_default_map).isSome →
      (List.lookup k (applyPattern vars rm fp)).isSome) ∧
    (∀ k p, List.lookup k (applyPattern vars rm fp) = some p →
      (List.lookup k get_default_map).isSome ∨ autoShaped p) := by
  unfold applyPattern
  split
  · exact ⟨h1, h2⟩
  · split
    · constructor
      · intro k hk
        rw [lookup_name_update]
        by_cases hkf : k = fp.1
        · rw [if_pos hkf]
          cases hs : List.lookup k rm with
          | some p0 => rfl
          | none =>
              have hone := h1 k hk
              rw [hs] at hone
              exact absurd hone (by simp)
        · rw [if_neg hkf]; exact h1 k hk
      · intro k p hp
        rw [lookup_name_update] at hp
        by_cases hkf : k = fp.1
        · rw [if_pos hkf] at hp
          rcases Option.map_eq_some'.mp hp with ⟨p0, hp0, hup⟩
          rcases h2 k p0 hp0 with hd | ha
          · exact .inl hd
          · refine .inr ?_
            rw [← hup]
            exact ⟨ha.1, ha.2.1, ha.2.2.1, rfl⟩
        · rw [if_neg hkf] at hp
          exact h2 k p hp
    · constructor
      · intro k hk
        rw [List.lookup_append]
        cases hs : List.lookup k rm with
        | some p0 => rfl
        | none =>
            have hone := h1 k hk
            rw [hs] at hone
            exact absurd hone (by simp)
      · intro k p hp
        rw [List.lookup_append] at hp
        cases hs : List.lookup k rm with
        | some p0 =>
            rw [hs,
              show ∀ (o : Option ParamInfo) (a : ParamInfo), (some a).or o = some a
                from fun _ _ => rfl] at hp
            exact h2 k p (hs.trans hp)
        | none =>
            rw [hs, Option.none_or, lookup_cons_ite] at hp
            by_cases hkf : k = fp.1
            · rw [if_pos hkf] at hp
              refine .inr ?_
              rw [← Option.some_inj.mp hp]
              exact ⟨rfl, rfl, rfl, rfl⟩
            · rw [if_neg hkf] at hp
              exact absurd hp (by simp)

/-- The pattern-loop invariant folded over any pattern list. -/
theorem foldl_applyPattern_invariant (vars : List String)
    (l : List (String × List String)) (rm : BindingTable)
    (h1 : ∀ k, (List.lookup k get_default_map).isSome → (List.lookup k rm).isSome)
    (h2 : ∀ k p, List.lookup k rm = some p →
      (List.lookup k get_default_map).isSome ∨ autoShaped p) :
    (∀ k, (List.lookup k get_default_map).isSome →
      (List.lookup k (l.foldl (applyPattern vars) rm)).isSome) ∧
    (∀ k p, List.lookup k (l.foldl (applyPattern vars) rm) = some p →
      (List.lookup k get_default_map).isSome ∨ autoShaped p) := by
  induction l generalizing rm with
  | nil => exact ⟨h1, h2⟩
  | cons fp l ih =>
      rw [List.foldl_cons]
      have step := applyPattern_invariant vars rm fp h1 h2
      exact ih (applyPattern vars rm fp) step.1 step.2

/-- Every table the resolver returns keeps all default friendly names
and only adds auto-shaped extras. -/
theorem build_map_invariant (parsed : Option PyVal) (e : List PyVal)
    (t : BindingTable) (h : _build_map_from_json_file parsed e = .ok t) :
    (∀ k, (List.lookup k get_default_map).isSome → (List.lookup k t).isSome) ∧
    (∀ k p, List.lookup k t = some p →
      (List.lookup k get_default_map).isSome ∨ autoShaped p) := by
  have base1 : ∀ k, (List.lookup k get_default_map).isSome →
      (List.lookup k get_default_map).isSome := fun _ hk => hk
  have base2 : ∀ k p, List.lookup k get_default_map = some p →
      (List.lookup k get_default_map).isSome ∨ autoShaped p := by
    intro k p hp
    exact .inl (by rw [hp]; rfl)
  cases parsed with
  | none =>
      have ht : t = get_default_map := by
        unfold _build_map_from_json_file at h
        exact (Except.ok.inj h).symm
      subst ht
      exact ⟨base1, base2⟩
  | some data =>
      have h' : (match extractData data with
          | Except.error u => Except.error u
          | Except.ok _ => buildFromEnum e) = Except.ok t := h
      cases hex : extractData data with
      | error u => rw [hex] at h'; exact absurd h' (by simp)
      | ok l =>
          rw [hex] at h'
          have h2' : (match asStrings e with
              | some vs => Except.ok (_build_map_from_vars vs)
              | none => Except.error ()) = Except.ok t := h'
          cases hstr : asStrings e with
          | none => rw [hstr] at h2'; exact absurd h2' (by simp)
          | some vs =>
              rw [hstr] at h2'
              have ht : t = _build_map_from_vars vs := (Except.ok.inj h2').symm
              subst ht
              exact foldl_applyPattern_invariant vs VARIABLE_PATTERNS
                get_default_map base1 base2

/-- A table the resolver returns is never the empty dict (so the
`if variable_map:` guard before `update_cache` passes). -/
theorem build_map_not_empty (parsed : Option PyVal) (e : List PyVal)
    (t : BindingTable) (h : _build_map_from_json_file parsed e = .ok t) :
    t.isEmpty = false := by
  have hd := (build_map_invariant parsed e t h).1 "head_lr" (by rfl)
  cases t with
  | nil => exact absurd hd (by simp)
  | cons a t => rfl

/-- C3 counterexample: storing a structurally valid table whose range is
a Python tuple (as in `get_default_map`) and loading it back through the
`get_bound_map` cache hit yields a table whose range is a list, hence
not equal to the stored table. -/
theorem claim_c3_counterexample :
    (get_bound_map true
        (update_cache (fun _ => CacheFile.absent) "model.psb"
          (.pyDict [("head_lr", .pyDict [("name", .pyNone),
            ("range", .pyTuple [.pyNum (-30), .pyNum 30]),
            ("category", .pyStr "头部"),
            ("special_usage", .pyList [.pyStr "HEAD_LR"])])]))
        (some none) [] "model.psb").map Prod.fst
      = .ok (.pyDict [("head_lr", .pyDict [("name", .pyNone),
          ("range", .pyList [.pyNum (-30), .pyNum 30]),
          ("category", .pyStr "头部"),
          ("special_usage", .pyList [.pyStr "HEAD_LR"])])])
    ∧ (PyVal.pyDict [("head_lr", .pyDict [("name", .pyNone),
          ("range", .pyList [.pyNum (-30), .pyNum 30]),
          ("category", .pyStr "头部"),
          ("special_usage", .pyList [.pyStr "HEAD_LR"])])])
      ≠ (.pyDict [("head_lr", .pyDict [("name", .pyNone),
          ("range", .pyTuple [.pyNum (-30), .pyNum 30]),
          ("category", .pyStr "头部"),
          ("special_usage", .pyList [.pyStr "HEAD_LR"])])]) := by
  refine ⟨rfl, ?_⟩
  intro h
  simp only [PyVal.pyDict.injEq, List.cons.injEq, Prod.mk.injEq, true_and, and_true] at h
  exact PyVal.noConfusion h

/-- C3 amended: the store-then-load round trip through `update_cache`
and the `get_bound_map` cache hit returns the stored table with every
tuple decayed to a list; in particular it returns the table unchanged
for every tuple-free table. -/
theorem claim_c3_amended_roundtrip (cache : String → CacheFile) (fn : String)
    (T : PyVal) (json_file : Option (Option PyVal)) (e : List PyVal)
    (h : tupleFree T = true) :
    (get_bound_map true (update_cache cache fn T) json_file e fn).map Prod.fst
      = .ok T := by
  have hckey : update_cache cache fn T (cacheKey fn) = .valid (pyToJson T) := by
    unfold update_cache
    rw [if_pos rfl]
  unfold get_bound_map
  rw [if_neg (by simp), hckey]
  show Except.ok (jsonToPy (pyToJson T)) = Except.ok T
  rw [jsonToPy_pyToJson T h]

/-- C3 amended witness: a concrete tuple-free table survives the round
trip exactly. -/
theorem claim_c3_amended_roundtrip_witness :
    (get_bound_map true
        (update_cache (fun _ => CacheFile.absent) "m.psb"
          (.pyDict [("mouth_talk", .pyDict [("name", .pyStr "face_talk"),
            ("range", .pyList [.pyNum 0, .pyNum 1]),
            ("category", .pyStr "嘴部"),
            ("special_usage", .pyList [.pyStr "MOUTH_OPEN"])])]))
        (some none) [] "m.psb").map Prod.fst
      = .ok (.pyDict [("mouth_talk", .pyDict [("name", .pyStr "face_talk"),
          ("range", .pyList [.pyNum 0, .pyNum 1]),
          ("category", .pyStr "嘴部"),
          ("special_usage", .pyList [.pyStr "MOUTH_OPEN"])])]) :=
  claim_c3_amended_roundtrip (fun _ => CacheFile.absent) "m.psb" _ (some none) [] rfl

/-- C5: a corrupt cache file is treated exactly as a miss (the returned
table is the one a missing cache file would produce; nothing is raised
by the load step), and whenever resolution succeeds the cache file for
the model is overwritten with the valid serialized table. -/
theorem claim_c5_corrupt_cache_is_miss (cache : String → CacheFile)
    (json_file : Option (Option PyVal)) (e : List PyVal) (fn : String)
    (hc : cache (cacheKey fn) = .corrupt) :
    ((get_bound_map true cache json_file e fn).map Prod.fst
      = (get_bound_map true
          (fun k => if k = cacheKey fn then CacheFile.absent else cache k)
          json_file e fn).map Prod.fst)
    ∧ (∀ parsed t, json_file = some parsed →
        _build_map_from_json_file parsed e = .ok t →
        (get_bound_map true cache json_file e fn).map
            (fun r => (r.1, r.2 (cacheKey fn)))
          = .ok (tableToPy t, .valid (pyToJson (tableToPy t)))) := by
  have hred : ∀ (c : String → CacheFile),
      c (cacheKey fn) = CacheFile.corrupt ∨ c (cacheKey fn) = CacheFile.absent →
      get_bound_map true c json_file e fn
        = match json_file with
          | none => .ok (tableToPy get_default_map, c)
          | some parsed =>
            match _build_map_from_json_file parsed e with
            | .error u => .error u
            | .ok t => .ok (tableToPy t,
                if t.isEmpty then c else update_cache c fn (tableToPy t)) := by
    intro c hc'
    unfold get_bound_map
    rw [if_neg (by simp)]
    rcases hc' with h | h <;> rw [h]
  have hval : ∀ (c : String → CacheFile),
      c (cacheKey fn) = CacheFile.corrupt ∨ c (cacheKey fn) = CacheFile.absent →
      (get_bound_map true c json_file e fn).map Prod.fst
        = match json_file with
          | none => Except.ok (tableToPy get_default_map)
          | some parsed =>
            match _build_map_from_json_file parsed e with
            | Except.error u => Except.error u
            | Except.ok t => Except.ok (tableToPy t) := by
    intro c hc'
    rw [hred c hc']
    cases json_file with
    | none => rfl
    | some parsed =>
        show Except.map Prod.fst
            (match _build_map_from_json_file parsed e with
              | Except.error u => Except.error u
              | Except.ok t => Except.ok (tableToPy t,
                  if t.isEmpty then c else update_cache c fn (tableToPy t)))
          = match _build_map_from_json_file parsed e with
              | Except.error u => Except.error u
              | Except.ok t => Except.ok (tableToPy t)
        cases _build_map_from_json_file parsed e with
        | error u => rfl
        | ok t => rfl
  constructor
  · rw [hval cache (Or.inl hc), hval _ (Or.inr (by simp))]
  · intro parsed t hjf hb
    subst hjf
    rw [hred cache (Or.inl hc)]
    show Except.map (fun r => (r.1, r.2 (cacheKey fn)))
        (match _build_map_from_json_file parsed e with
          | Except.error u => Except.error u
          | Except.ok t' => Except.ok (tableToPy t',
              if t'.isEmpty then cache else update_cache cache fn (tableToPy t')))
      = Except.ok (tableToPy t, .valid (pyToJson (tableToPy t)))
    rw [hb]
    simp [Except.map, update_cache, build_map_not_empty parsed e t hb]

/-- C5 witness: concrete corrupt cache entry, empty manifest; the load
falls through to resolution and the default table is written back. -/
theorem claim_c5_corrupt_cache_is_miss_witness :
    (((get_bound_map true
          (fun k => if k = cacheKey "m.psb" then CacheFile.corrupt else CacheFile.absent)
          (some (some (.pyDict []))) [] "m.psb").map Prod.fst
        = (get_bound_map true
            (fun k => if k = cacheKey "m.psb" then CacheFile.absent
              else (fun k' => if k' = cacheKey "m.psb" then CacheFile.corrupt
                else CacheFile.absent) k)
            (some (some (.pyDict []))) [] "m.psb").map Prod.fst)
      ∧ (get_bound_map true
            (fun k => if k = cacheKey "m.psb" then CacheFile.corrupt else CacheFile.absent)
            (some (some (.pyDict []))) [] "m.psb").map
              (fun r => (r.1, r.2 (cacheKey "m.psb")))
          = .ok (tableToPy get_default_map,
              .valid (pyToJson (tableToPy get_default_map)))) :=
  ⟨(claim_c5_corrupt_cache_is_miss _ _ [] "m.psb" (by simp)).1,
    (claim_c5_corrupt_cache_is_miss _ _ [] "m.psb" (by simp)).2
      (some (.pyDict [])) get_default_map rfl rfl⟩

/-- C6 counterexample: the manifest lists `fade_a` before `fade_la`
(both match the `part_a_fade` pattern `^fade_l?a$`), but the extracted
names pass through a Python set, so the enumeration
`[fade_la, fade_a]` is a legitimate `list(vars_found)`; the resolver
then binds `part_a_fade` to `fade_la`, not to the first match in
manifest order. -/
theorem claim_c6_counterexample :
    extractData (.pyList [.pyDict [("label", .pyStr "fade_a")],
        .pyDict [("label", .pyStr "fade_la")]])
      = .ok [.pyStr "fade_a", .pyStr "fade_la"]
    ∧ validEnum (.pyList [.pyDict [("label", .pyStr "fade_a")],
        .pyDict [("label", .pyStr "fade_la")]])
        [.pyStr "fade_la", .pyStr "fade_a"]
    ∧ buildFromEnum [.pyStr "fade_la", .pyStr "fade_a"]
        = .ok (_build_map_from_vars ["fade_la", "fade_a"])
    ∧ List.lookup "part_a_fade" (_build_map_from_vars ["fade_la", "fade_a"])
        = some ⟨some "fade_la", (-1, 1), "自动匹配", []⟩
    ∧ ("fade_la" : String) ≠ "fade_a" := by
  refine ⟨rfl, ⟨[.pyStr "fade_a", .pyStr "fade_la"], rfl, by simp, ?_⟩, rfl, rfl, by decide⟩
  intro x
  simp only [List.mem_cons, List.not_mem_nil, or_false]
  tauto

/-- C6 amended: when several extracted raw names match a friendly
name's pattern, the resolver binds that friendly name to the first
match in the order of the deduplicated extraction list (an unspecified
Python set iteration order, not necessarily manifest order); no error
is raised. -/
theorem claim_c6_amended_first_match (vars : List String) (fn : String)
    (pat : List String) (hmem : (fn, pat) ∈ VARIABLE_PATTERNS)
    (m : String) (rest : List String)
    (hf : vars.filter (fun v => pat.contains v) = m :: rest) :
    ∃ p, List.lookup fn (_build_map_from_vars vars) = some p ∧ p.name = some m := by
  obtain ⟨s, t2, hsplit⟩ := List.append_of_mem hmem
  have hnd : (VARIABLE_PATTERNS.map Prod.fst).Nodup := by decide
  rw [hsplit, List.map_append, List.map_cons] at hnd
  have hfn_notin : fn ∉ t2.map Prod.fst :=
    (List.nodup_cons.mp hnd.of_append_right).1
  have hne : ∀ fp ∈ t2, fn ≠ fp.1 := by
    intro fp hfp heq
    exact hfn_notin (by rw [heq]; exact List.mem_map_of_mem Prod.fst hfp)
  unfold _build_map_from_vars
  rw [hsplit, List.foldl_append, List.foldl_cons,
    foldl_applyPattern_lookup_ne vars t2 _ fn hne]
  exact applyPattern_lookup_self vars _ (fn, pat) m rest hf

/-- C6 amended witness, which is also the spec's scenario: a manifest
exposing `face_talk` binds `mouth_talk` to it. -/
theorem claim_c6_amended_first_match_witness :
    ∃ p, List.lookup "mouth_talk" (_build_map_from_vars ["face_talk"]) = some p
      ∧ p.name = some "face_talk" :=
  claim_c6_amended_first_match ["face_talk"] "mouth_talk" ["face_talk"]
    (by decide) "face_talk" [] rfl

/-- C7 counterexample: a parseable manifest whose `optionList` carries a
numeric `label` extracts that number into the variable set, and the
resolver then raises (the `re.match` TypeError escapes), so the claim
that no exception escapes for every manifest input fails. -/
theorem claim_c7_counterexample :
    extractData (.pyDict [("optionList", .pyList [.pyDict [("label", .pyNum 1)]])])
      = .ok [.pyNum 1]
    ∧ validEnum (.pyDict [("optionList", .pyList [.pyDict [("label", .pyNum 1)]])])
        [.pyNum 1]
    ∧ _build_map_from_json_file
        (some (.pyDict [("optionList", .pyList [.pyDict [("label", .pyNum 1)]])]))
        [.pyNum 1]
      = .error () := by
  exact ⟨rfl, ⟨[.pyNum 1], rfl, by simp, fun x => Iff.rfl⟩, rfl⟩

/-- C7 amended: whenever the resolver returns a table (in particular for
every unreadable or unparseable manifest, and for every manifest whose
extracted names are all strings), the table contains every friendly name
of the default table, and every other entry is auto-matched: default
numeric range `(-1, 1)`, category `自动匹配`, no tags, and a bound raw
name; a manifest with a non-string extracted label instead raises a
TypeError that escapes the resolver. -/
theorem claim_c7_amended_default_keys (parsed : Option PyVal) (e : List PyVal)
    (t : BindingTable) (h : _build_map_from_json_file parsed e = .ok t) :
    (∀ k, (List.lookup k get_default_map).isSome → (List.lookup k t).isSome) ∧
    (∀ k p, List.lookup k t = some p →
      (List.lookup k get_default_map).isSome ∨ autoShaped p) :=
  build_map_invariant parsed e t h

/-- C7 amended witness: the unparseable-manifest branch keeps the
default `head_lr` key. -/
theorem claim_c7_amended_default_keys_witness :
    (List.lookup "head_lr"
      ((get_default_map : BindingTable))).isSome = true :=
  (claim_c7_amended_default_keys none [] get_default_map rfl).1 "head_lr" (by rfl)

/-- C10 counterexample: when no entry carries MOUTH_OPEN but a previous
session is running, `start_lip_sync` is not a no-op: it stops the
running session (stop flag set, thread stopped) before returning. -/
theorem claim_c10_counterexample :
    start_lip_sync ⟨[], true, false, none⟩
        = (⟨[], false, true, none⟩, false)
      ∧ (⟨[], false, true, none⟩ : WidgetState) ≠ ⟨[], true, false, none⟩ := by
  exact ⟨rfl, by decide⟩

/-- C10 amended: if no entry of the binding table carries MOUTH_OPEN,
`start_lip_sync` starts nothing: no thread is created or started, the
table and saved mouth parameter are untouched, and the whole widget
state is unchanged provided no previous session was running (a running
previous session is still stopped first). -/
theorem claim_c10_amended_no_mouth_tag (w : WidgetState)
    (h : find_param_by_usage w.variable_map MOUTH_OPEN = none) :
    (start_lip_sync w).2 = false
    ∧ (start_lip_sync w).1.thread_running = false
    ∧ (start_lip_sync w).1.mouth_param_info = w.mouth_param_info
    ∧ (start_lip_sync w).1.variable_map = w.variable_map
    ∧ (w.thread_running = false → (start_lip_sync w).1 = w) := by
  cases hw : w.thread_running with
  | true =>
      refine ⟨?_, ?_, ?_, ?_, fun hctr => absurd hctr (by simp)⟩ <;>
        simp [start_lip_sync, stop_lip_sync, hw, h]
  | false =>
      refine ⟨?_, ?_, ?_, ?_, fun _ => ?_⟩ <;>
        simp [start_lip_sync, stop_lip_sync, hw, h]

/-- C10 amended witness: with an empty table and no running session the
widget state is fully unchanged and nothing starts. -/
theorem claim_c10_amended_no_mouth_tag_witness :
    (start_lip_sync ⟨[], false, false, none⟩).2 = false
    ∧ (start_lip_sync ⟨[], false, false, none⟩).1 = ⟨[], false, false, none⟩ :=
  ⟨(claim_c10_amended_no_mouth_tag ⟨[], false, false, none⟩ rfl).1,
    (claim_c10_amended_no_mouth_tag ⟨[], false, false, none⟩ rfl).2.2.2.2 rfl⟩
